import Mathlib

/-!
# Verification of the response-normalization and rendering contract of `biz_demos.py`

This file gives a shallow embedding of the Streamlit app `src/biz_demos.py`:
a JSON value type, the Python-level operations the app performs on parsed
JSON (`data[k]`, `data.get(k, d)`, `k in data`, truthiness, iteration,
integer comparison), and the three scenario flows
(`render_legal_demo`, `render_strategy_demo`, `render_recruiter_demo`)
together with the startup credential resolution and the router.

`json.loads` itself is external (Python's standard library); the flows are
therefore modelled as functions of the raw response text together with its
parse result (`Option Json`, `none` meaning `json.JSONDecodeError` was
raised).  Everything downstream of the parse is translated line by line
from the source.
-/

set_option autoImplicit false

namespace BizDemos

/-- A parsed JSON value, as produced by Python's `json.loads`:
`null`, booleans, numbers (modelled as integers, the only numeric values
relevant to the schemas), strings, lists, and objects (ordered key/value
pairs as Python dicts preserve insertion order). -/
inductive Json where
  | null
  | bool (b : Bool)
  | num (n : Int)
  | str (s : String)
  | arr (elems : List Json)
  | obj (fields : List (String × Json))

/-- Structural decidable equality for `Json` (Python `==` on these values). -/
def Json.beq : Json → Json → Bool
  | .null, .null => true
  | .bool a, .bool b => a == b
  | .num a, .num b => a == b
  | .str a, .str b => a == b
  | .arr a, .arr b => beqList a b
  | .obj a, .obj b => beqFields a b
  | _, _ => false
where
  beqList : List Json → List Json → Bool
    | [], [] => true
    | x :: xs, y :: ys => Json.beq x y && beqList xs ys
    | _, _ => false
  beqFields : List (String × Json) → List (String × Json) → Bool
    | [], [] => true
    | (k, v) :: xs, (l, w) :: ys => k == l && Json.beq v w && beqFields xs ys
    | _, _ => false

instance : BEq Json := ⟨Json.beq⟩

/-- The Python exceptions the scenario flows can raise while consuming a
parsed response, named after the error taxonomy of the spec where the
correspondence is direct:
* `parseError raw` — `json.JSONDecodeError` (the spec's `ParseError`),
  carrying the raw response text;
* `indexError` — `IndexError` from `data[0]` on an empty list
  (the spec's `EmptyResultError`);
* `keyError k` — `KeyError` from `data[k]` on a dict without key `k`
  (the spec's `MissingRequiredFieldError`);
* `typeError` — `TypeError` (subscripting a list with a string, comparing a
  non-number with `>`, iterating a non-iterable, `in` on a non-container);
* `attributeError` — `AttributeError` (`.get` on a non-dict value). -/
inductive Err where
  | parseError (raw : String)
  | indexError
  | keyError (key : String)
  | typeError (msg : String)
  | attributeError (msg : String)
deriving DecidableEq

/-- Field lookup in a parsed JSON object, Python dict access by key
(first matching key; parsed dicts have unique keys anyway). -/
def lookupField : List (String × Json) → String → Option Json
  | [], _ => none
  | (k, v) :: rest, key => if k = key then some v else lookupField rest key

/-- Python `data[k]` with a string subscript: returns the value on a dict
with the key, raises `KeyError` on a dict without it, and `TypeError` on
any non-dict value (`list`/`str` demand integer indices; numbers, booleans
and `None` are not subscriptable). -/
def subscript (data : Json) (k : String) : Except Err Json :=
  match data with
  | .obj kvs =>
    match lookupField kvs k with
    | some v => .ok v
    | none => .error (.keyError k)
  | .arr _ => .error (.typeError "list indices must be integers or slices, not str")
  | .str _ => .error (.typeError "string indices must be integers")
  | _ => .error (.typeError "object is not subscriptable")

/-- Python `data.get(k, d)`: only dicts have `.get`; everything else raises
`AttributeError`. -/
def getDefault (data : Json) (k : String) (d : Json) : Except Err Json :=
  match data with
  | .obj kvs => .ok ((lookupField kvs k).getD d)
  | _ => .error (.attributeError "object has no attribute get")

/-- Python `isinstance(data, list)`. -/
def isList : Json → Bool
  | .arr _ => true
  | _ => false

/-- Python truthiness of a parsed JSON value: `None`, `False`, `0`, `""`,
`[]` and `{}` are falsy, everything else truthy. -/
def truthy : Json → Bool
  | .null => false
  | .bool b => b
  | .num n => n != 0
  | .str s => s ≠ ""
  | .arr l => !l.isEmpty
  | .obj kvs => !kvs.isEmpty

/-- Python `needle in data` for a string needle: substring test on a
string, element membership on a list, key membership on a dict, and
`TypeError` on non-containers. -/
def pyIn (needle : String) (data : Json) : Except Err Bool :=
  match data with
  | .str s => .ok (decide (needle.toList <:+: s.toList))
  | .arr l => .ok (l.contains (.str needle))
  | .obj kvs => .ok (lookupField kvs needle).isSome
  | _ => .error (.typeError "argument is not iterable")

/-- Python `for x in data`: a list yields its elements, a string its
characters, a dict its keys; other values raise `TypeError`. -/
def pyIterate : Json → Except Err (List Json)
  | .arr l => .ok l
  | .str s => .ok (s.toList.map fun c => .str (String.mk [c]))
  | .obj kvs => .ok (kvs.map fun p => .str p.1)
  | _ => .error (.typeError "object is not iterable")

/-- Python `data > c` for an integer literal `c`: defined on numbers
(booleans count as `0`/`1` since `bool` subclasses `int`), `TypeError`
otherwise. -/
def pyGtInt (data : Json) (c : Int) : Except Err Bool :=
  match data with
  | .num n => .ok (decide (n > c))
  | .bool b => .ok (decide ((if b then (1 : Int) else 0) > c))
  | _ => .error (.typeError "not supported between instances")

/-! ## Demo 2: the competitive battlecard (`render_strategy_demo`) -/

/-- What the battlecard rendering (lines 144–160) puts on the page: the
two `.get`-resolved strings, the kill points actually looped over
(nothing when `kill_points` is absent or not a list), and the pricing
angle. -/
structure BattlecardView where
  theirWeakness : Json
  ourStrength : Json
  killPoints : List Json
  pricing : Json

instance : BEq BattlecardView :=
  ⟨fun a b => a.theirWeakness == b.theirWeakness && a.ourStrength == b.ourStrength
    && a.killPoints == b.killPoints && a.pricing == b.pricing⟩

/-- Field resolution of the battlecard demo after shape coercion
(lines 148–160): `data.get('their_weakness', 'N/A')`,
`data.get('our_strength', 'N/A')`, the guarded
`if "kill_points" in data and isinstance(data['kill_points'], list)` loop,
and `data.get('pricing_comparison', 'N/A')`. -/
def strategyFields (data : Json) : Except Err BattlecardView := do
  let tw ← getDefault data "their_weakness" (.str "N/A")
  let os ← getDefault data "our_strength" (.str "N/A")
  let hasKp ← pyIn "kill_points" data
  let kps ←
    if hasKp then do
      let v ← subscript data "kill_points"
      match v with
      | .arr l => pure l
      | _ => pure []
    else
      pure []
  let pc ← getDefault data "pricing_comparison" (.str "N/A")
  pure ⟨tw, os, kps, pc⟩

/-- The battlecard demo's handling of a parsed value (lines 139–160): the
list-vs-dict robustness fix `if isinstance(data, list): data = data[0]`
(raising `IndexError` on an empty list) followed by field resolution. -/
def normalizeStrategy (data : Json) : Except Err BattlecardView := do
  let d ←
    if isList data then
      match data with
      | .arr [] => .error .indexError
      | .arr (x :: _) => pure x
      | _ => pure data
    else
      pure data
  strategyFields d

/-- The battlecard try-block from the point the response text exists
(lines 137–160): parse, then normalize.  `parsed = none` models
`json.loads` raising `JSONDecodeError`. -/
def strategyCore (raw : String) (parsed : Option Json) : Except Err BattlecardView :=
  match parsed with
  | none => .error (.parseError raw)
  | some j => normalizeStrategy j

/-- Outcome of the battlecard scenario: either the rendered view, or the
except-branch (lines 162–167) showing `Error generating battlecard: {e}`
together with the raw AI output in a debugging expander. -/
inductive StrategyOutcome where
  | rendered (v : BattlecardView)
  | failed (e : Err) (rawShown : String)

/-- The full battlecard scenario flow around the try/except boundary. -/
def strategyFlow (raw : String) (parsed : Option Json) : StrategyOutcome :=
  match strategyCore raw parsed with
  | .ok v => .rendered v
  | .error e => .failed e raw

/-! ## Demo 1: the legal risk auditor (`render_legal_demo`) -/

/-- What the contract-risk rendering (lines 74–88) puts on the page: the
score metric (`{risk_score}/100`), the colour chosen by
`"red" if data['risk_score'] > 50 else "green"`, the level markdown
`### Level: :{color}[{risk_level}]`, and one `(flag, rewrite)` expander
per entry of `analysis`. -/
structure LegalView where
  riskScore : Json
  color : String
  riskLevel : Json
  analysis : List (Json × Json)

instance : BEq LegalView :=
  ⟨fun a b => a.riskScore == b.riskScore && a.color == b.color
    && a.riskLevel == b.riskLevel && a.analysis == b.analysis⟩

/-- The loop `for item in data['analysis']` (lines 85–88): each item is
subscripted with `'flag'` and `'rewrite'`. -/
def renderAnalysisItems : List Json → Except Err (List (Json × Json))
  | [] => .ok []
  | item :: rest => do
    let f ← subscript item "flag"
    let r ← subscript item "rewrite"
    let tl ← renderAnalysisItems rest
    pure ((f, r) :: tl)

/-- The contract-risk demo's handling of a parsed value (lines 74–88), in
source order: `data['risk_score']` for the metric, the `> 50` colour
comparison, `data['risk_level']`, then iterating `data['analysis']`.
There is no list-vs-dict coercion in this demo. -/
def normalizeLegal (data : Json) : Except Err LegalView := do
  let rs ← subscript data "risk_score"
  let gt ← pyGtInt rs 50
  let color := if gt then "red" else "green"
  let rl ← subscript data "risk_level"
  let an ← subscript data "analysis"
  let items ← pyIterate an
  let rendered ← renderAnalysisItems items
  pure ⟨rs, color, rl, rendered⟩

/-- The contract-risk try-block from the point the response text exists
(lines 70–88): `json.loads` then rendering. -/
def legalCore (raw : String) (parsed : Option Json) : Except Err LegalView :=
  match parsed with
  | none => .error (.parseError raw)
  | some j => normalizeLegal j

/-- Outcome of the contract-risk scenario: the rendered view, or the
except-branch (lines 90–91) showing `Analysis failed: {e}` inline.  The
raw response text is not echoed in this demo. -/
inductive LegalOutcome where
  | rendered (v : LegalView)
  | failed (e : Err)

/-- The full contract-risk scenario flow around the try/except boundary. -/
def legalFlow (raw : String) (parsed : Option Json) : LegalOutcome :=
  match legalCore raw parsed with
  | .ok v => .rendered v
  | .error e => .failed e

/-- The inline message the contract-risk except-branch displays
(line 91); the interpolated text of the exception itself is Python's
`str(e)`, which we do not model further. -/
def legalUserMessage : LegalOutcome → Option String
  | .rendered _ => none
  | .failed _ => some "Analysis failed: "

/-! ## Demo 3: the smart resume screener (`render_recruiter_demo`) -/

/-- What the resume-screening rendering (lines 240–268) puts on the page:
the match-score metric, the verdict colour
(`"green" if data['recommendation'] == "Shortlist" else "red"`), the
notice-period branch (warning plus prominently displayed outreach
text-area when `"Unknown" in np or "Missing" in np`, otherwise a success
line with the outreach draft inside a collapsed expander), the summary,
and the missing-skills block (the bullet list when
`data['key_missing_skills']` is truthy, otherwise balloons and
`Perfect Skill Match!`). -/
structure ScreeningView where
  matchScore : Json
  verdictColor : String
  recommendation : Json
  noticePeriod : Json
  noticeMissing : Bool
  outreachDraft : Json
  summary : Json
  missingSkills : List Json
  skillsListShown : Bool

instance : BEq ScreeningView :=
  ⟨fun a b => a.matchScore == b.matchScore && a.verdictColor == b.verdictColor
    && a.recommendation == b.recommendation && a.noticePeriod == b.noticePeriod
    && a.noticeMissing == b.noticeMissing && a.outreachDraft == b.outreachDraft
    && a.summary == b.summary && a.missingSkills == b.missingSkills
    && a.skillsListShown == b.skillsListShown⟩

/-- The resume-screening demo's handling of a parsed value
(lines 240–268), in source order: `data['match_score']`, the verdict
colour from `data['recommendation'] == "Shortlist"`,
`np = data['notice_period_detected']` with the short-circuit
`"Unknown" in np or "Missing" in np`, `data['outreach_draft']` (accessed
in both branches), `data['summary']`, then
`if data['key_missing_skills']:` (truthiness) guarding the skill loop.
There is no list-vs-dict coercion in this demo and no `.get` defaults. -/
def normalizeRecruiter (data : Json) : Except Err ScreeningView := do
  let ms ← subscript data "match_score"
  let recomm ← subscript data "recommendation"
  let color := if recomm == Json.str "Shortlist" then "green" else "red"
  let np ← subscript data "notice_period_detected"
  let inUnknown ← pyIn "Unknown" np
  let missing ← if inUnknown then pure true else pyIn "Missing" np
  let od ← subscript data "outreach_draft"
  let summ ← subscript data "summary"
  let kms ← subscript data "key_missing_skills"
  let (skills, shown) ←
    if truthy kms then do
      let l ← pyIterate kms
      pure (l, true)
    else
      pure (([] : List Json), false)
  pure ⟨ms, color, recomm, np, missing, od, summ, skills, shown⟩

/-- The resume-screening try-block from the point the response text
exists (lines 228–268). -/
def recruiterCore (raw : String) (parsed : Option Json) : Except Err ScreeningView :=
  match parsed with
  | none => .error (.parseError raw)
  | some j => normalizeRecruiter j

/-- Outcome of the resume-screening scenario: the PDF-extraction failure
branch (lines 208–210, `Could not read PDF…` then `st.stop()`), the
rendered view, or the outer except-branch (lines 270–271,
`AI Error: {e}`). -/
inductive RecruiterOutcome where
  | pdfFailed
  | rendered (v : ScreeningView)
  | aiError (e : Err)

/-- The full resume-screening scenario flow: PDF text extraction (its own
try/except, modelled by an `Except Unit String` result from the external
`PdfReader`), then the model call and rendering inside the outer
try/except.  When extraction fails the flow stops before any model call,
so `raw`/`parsed` are irrelevant in that branch. -/
def recruiterFlow (pdf : Except Unit String) (raw : String) (parsed : Option Json) :
    RecruiterOutcome :=
  match pdf with
  | .error _ => .pdfFailed
  | .ok _ =>
    match recruiterCore raw parsed with
    | .ok v => .rendered v
    | .error e => .aiError e

/-! ## Startup credential resolution and the router (lines 12–22, 274–282) -/

/-- The hybrid secret loading (lines 13–16): `st.secrets` first, falling
back to `os.environ.get`.  `st.secrets` is modelled as key/value pairs
and the environment as a partial map. -/
def lookupSecret : List (String × String) → String → Option String
  | [], _ => none
  | (k, v) :: rest, key => if k = key then some v else lookupSecret rest key

/-- `api_key` as assigned at lines 13–16. -/
def resolveApiKey (secrets : List (String × String)) (env : String → Option String) :
    Option String :=
  match lookupSecret secrets "GOOGLE_API_KEY" with
  | some v => some v
  | none => env "GOOGLE_API_KEY"

/-- The state after the startup check `if not api_key` (lines 18–20):
`None` and the empty string are falsy, so both halt with the error. -/
inductive AppState where
  | halted (msg : String)
  | running (apiKey : String)

/-- Lines 13–22: resolve the key, halt with `🚨 API Key missing.` when it
is missing or falsy, otherwise construct the client and continue. -/
def startup (secrets : List (String × String)) (env : String → Option String) : AppState :=
  match resolveApiKey secrets env with
  | none => .halted "🚨 API Key missing."
  | some "" => .halted "🚨 API Key missing."
  | some k => .running k

/-- The three scenario pages of the sidebar router. -/
inductive Page where
  | legal
  | strategy
  | recruiter
deriving DecidableEq

/-- The router (lines 277–282): dispatch on the radio choice; an
unrecognised choice renders no page. -/
def route (choice : String) : Option Page :=
  if choice = "Legal Risk Auditor" then some .legal
  else if choice = "Sales Battlecard Agent" then some .strategy
  else if choice = "Smart Resume Screener" then some .recruiter
  else none

/-- What the whole script does at top level: `st.stop()` at line 20 halts
before the router, so no scenario is reachable without a key. -/
inductive AppOutcome where
  | stopped (msg : String)
  | page (p : Option Page)

/-- Top-level control flow of the script: startup check, then the
router. -/
def runApp (secrets : List (String × String)) (env : String → Option String)
    (choice : String) : AppOutcome :=
  match startup secrets env with
  | .halted m => .stopped m
  | .running _ => .page (route choice)

/-! ## Helper lemmas -/

@[simp]
theorem ok_bind {α β : Type} (a : α) (f : α → Except Err β) :
    (Except.ok a >>= f : Except Err β) = f a := rfl

@[simp]
theorem error_bind {α β : Type} (e : Err) (f : α → Except Err β) :
    (Except.error e >>= f : Except Err β) = .error e := rfl

theorem subscript_obj_some {kvs : List (String × Json)} {k : String} {v : Json}
    (h : lookupField kvs k = some v) : subscript (.obj kvs) k = .ok v := by
  simp [subscript, h]

theorem subscript_obj_none {kvs : List (String × Json)} {k : String}
    (h : lookupField kvs k = none) : subscript (.obj kvs) k = .error (.keyError k) := by
  simp [subscript, h]

/-- The kill points the battlecard loop renders for a parsed object: the
list value of `kill_points` when present and a list, nothing otherwise. -/
def killPointsOf (kvs : List (String × Json)) : List Json :=
  match lookupField kvs "kill_points" with
  | some (.arr l) => l
  | _ => []

/-- Full characterisation of battlecard field resolution on an object:
it always succeeds, `.get` defaults fill in `"N/A"` for the three string
slots, and the kill-point loop runs exactly on `killPointsOf`. -/
theorem strategyFields_obj (kvs : List (String × Json)) :
    strategyFields (.obj kvs) =
      .ok ⟨(lookupField kvs "their_weakness").getD (.str "N/A"),
           (lookupField kvs "our_strength").getD (.str "N/A"),
           killPointsOf kvs,
           (lookupField kvs "pricing_comparison").getD (.str "N/A")⟩ := by
  unfold strategyFields killPointsOf
  cases h : lookupField kvs "kill_points" with
  | none => simp [getDefault, pyIn, h]
  | some v => cases v <;> simp [getDefault, pyIn, subscript, h]

/-- Shape coercion is the identity on objects. -/
theorem normalizeStrategy_obj (kvs : List (String × Json)) :
    normalizeStrategy (.obj kvs) = strategyFields (.obj kvs) := rfl

/-! ## Claim C1: list-wrapped payloads -/

/-- C1 (counterexample).  The claim says every scenario that consumes a
normalized record treats a list payload by selecting its first element.
The contract-risk scenario does not: on the singleton list wrapping a
schema-complete object it fails with a `TypeError` from
`data['risk_score']`, while the same object unwrapped renders fine — so
the first element is not selected there. -/
theorem C1_counterexample :
    legalFlow "raw"
        (some (.arr [.obj [("risk_score", .num 10), ("risk_level", .str "Low"),
          ("analysis", .arr [])]]))
      = .failed (.typeError "list indices must be integers or slices, not str")
    ∧ legalFlow "raw"
        (some (.obj [("risk_score", .num 10), ("risk_level", .str "Low"),
          ("analysis", .arr [])]))
      = .rendered ⟨.num 10, "green", .str "Low", []⟩ :=
  ⟨rfl, rfl⟩

/-- C1 (amended).  Only the battlecard scenario coerces a list payload:
there, a non-empty list is normalized exactly as its first element alone
would be, so later elements never affect the output; the contract-risk
and resume-screening scenarios fail with a `TypeError` on any list
payload. -/
theorem C1_first_element_battlecard_only :
    (∀ (x : Json) (rest : List Json),
      normalizeStrategy (.arr (x :: rest)) = strategyFields x)
    ∧ (∀ l : List Json, normalizeLegal (.arr l)
        = .error (.typeError "list indices must be integers or slices, not str"))
    ∧ (∀ l : List Json, normalizeRecruiter (.arr l)
        = .error (.typeError "list indices must be integers or slices, not str")) :=
  ⟨fun _ _ => rfl, fun _ => rfl, fun _ => rfl⟩

/-! ## Claim C3: invalid JSON -/

/-- C3.  When the response text is not valid JSON (`json.loads` raises,
modelled as `parsed = none`), each scenario's try-block fails with the
distinct `parseError` carrying the untouched raw text, and the
battlecard scenario's except-branch displays exactly that raw text in its
debugging expander. -/
theorem C3_parse_failure_preserves_raw :
    (∀ raw : String, strategyCore raw none = .error (.parseError raw))
    ∧ (∀ raw : String, strategyFlow raw none = .failed (.parseError raw) raw)
    ∧ (∀ raw : String, legalCore raw none = .error (.parseError raw))
    ∧ (∀ raw : String, recruiterCore raw none = .error (.parseError raw)) :=
  ⟨fun _ => rfl, fun _ => rfl, fun _ => rfl, fun _ => rfl⟩

/-! ## Claim C4: empty list -/

/-- C4.  In the battlecard scenario (the one that performs shape
coercion, lines 140–141), an empty JSON list fails with exactly the
`IndexError` of `data[0]` — the spec's `EmptyResultError` — and no other
error kind. -/
theorem C4_empty_list_fails_with_index_error :
    normalizeStrategy (.arr []) = .error .indexError
    ∧ ∀ raw : String, strategyFlow raw (some (.arr [])) = .failed .indexError raw :=
  ⟨rfl, fun _ => rfl⟩

/-! ## Claim C2: defaults for missing optional fields -/

/-- C2 (counterexample).  The claim says every parsed object missing an
optional field gets the field's default instead of raising.  The
resume-screening scenario raises: an object with every field except the
optional list field `key_missing_skills` fails with `KeyError` (the
except-branch's `AI Error` message) instead of substituting the empty
sequence. -/
theorem C2_counterexample :
    normalizeRecruiter (.obj [("match_score", .num 80), ("summary", .str "ok"),
        ("notice_period_detected", .str "30 days"), ("recommendation", .str "Shortlist"),
        ("outreach_draft", .str "hi")])
      = .error (.keyError "key_missing_skills")
    ∧ recruiterFlow (.ok "resume text") "raw"
        (some (.obj [("match_score", .num 80), ("summary", .str "ok"),
          ("notice_period_detected", .str "30 days"), ("recommendation", .str "Shortlist"),
          ("outreach_draft", .str "hi")]))
      = .aiError (.keyError "key_missing_skills") :=
  ⟨rfl, rfl⟩

/-- C2 (amended).  In the battlecard scenario — the only one that uses
defaults — normalization of a parsed object never raises: each of the
three string fields resolves to its present value as-is (whatever its
type) or to `"N/A"` when absent, and the kill-point list renders the
`kill_points` value when present and a list, and nothing otherwise. -/
theorem C2_battlecard_defaults :
    ∀ kvs : List (String × Json),
      normalizeStrategy (.obj kvs) =
        .ok ⟨(lookupField kvs "their_weakness").getD (.str "N/A"),
             (lookupField kvs "our_strength").getD (.str "N/A"),
             killPointsOf kvs,
             (lookupField kvs "pricing_comparison").getD (.str "N/A")⟩ := by
  intro kvs
  rw [normalizeStrategy_obj]
  exact strategyFields_obj kvs

/-! ## Claim C5: missing required numeric fields -/

/-- C5.  An object without `risk_score` makes the contract-risk flow fail
with `KeyError 'risk_score'` — the spec's `MissingRequiredFieldError` —
surfaced as the generic `Analysis failed:` inline message; likewise an
object without `match_score` makes the resume-screening flow fail with
`KeyError 'match_score'`, surfaced as the `AI Error` message.  No value
is substituted. -/
theorem C5_missing_required_field :
    ∀ (raw t : String) (kvs kvs2 : List (String × Json)),
      lookupField kvs "risk_score" = none →
      lookupField kvs2 "match_score" = none →
      legalFlow raw (some (.obj kvs)) = .failed (.keyError "risk_score")
      ∧ legalUserMessage (legalFlow raw (some (.obj kvs))) = some "Analysis failed: "
      ∧ recruiterFlow (.ok t) raw (some (.obj kvs2)) = .aiError (.keyError "match_score") := by
  intro raw t kvs kvs2 h1 h2
  have hl : normalizeLegal (.obj kvs) = .error (.keyError "risk_score") := by
    unfold normalizeLegal
    rw [subscript_obj_none h1]
    rfl
  have hr : normalizeRecruiter (.obj kvs2) = .error (.keyError "match_score") := by
    unfold normalizeRecruiter
    rw [subscript_obj_none h2]
    rfl
  refine ⟨?_, ?_, ?_⟩ <;>
    simp [legalFlow, legalCore, recruiterFlow, recruiterCore, hl, hr, legalUserMessage]

/-- C5 (witness): both failures at concrete empty objects. -/
theorem C5_missing_required_field_witness :
    legalFlow "x" (some (.obj [])) = .failed (.keyError "risk_score")
    ∧ legalUserMessage (legalFlow "x" (some (.obj []))) = some "Analysis failed: "
    ∧ recruiterFlow (.ok "t") "x" (some (.obj [])) = .aiError (.keyError "match_score") :=
  C5_missing_required_field "x" "t" [] [] rfl rfl

/-! ## Claim C6: round-trip identity -/

/-- The battlecard view re-serialised as the JSON object the prompt asks
for (the four schema keys, lines 121–127). -/
def serializeBattlecard (v : BattlecardView) : Json :=
  .obj [("their_weakness", v.theirWeakness), ("our_strength", v.ourStrength),
        ("kill_points", .arr v.killPoints), ("pricing_comparison", v.pricing)]

/-- C6.  A parsed object already matching the battlecard schema
normalizes to the view whose every field is the corresponding input
value, and re-normalizing any view's serialised form yields that same
view (idempotence). -/
theorem C6_round_trip_identity :
    (∀ (kvs : List (String × Json)) (tw os pc : String) (kp : List Json),
      lookupField kvs "their_weakness" = some (.str tw) →
      lookupField kvs "our_strength" = some (.str os) →
      lookupField kvs "kill_points" = some (.arr kp) →
      lookupField kvs "pricing_comparison" = some (.str pc) →
      normalizeStrategy (.obj kvs) = .ok ⟨.str tw, .str os, kp, .str pc⟩)
    ∧ ∀ v : BattlecardView, normalizeStrategy (serializeBattlecard v) = .ok v := by
  constructor
  · intro kvs tw os pc kp h1 h2 h3 h4
    rw [normalizeStrategy_obj, strategyFields_obj]
    simp [killPointsOf, h1, h2, h3, h4]
  · intro v
    rfl

/-- C6 (witness): round trip at a concrete schema-complete object. -/
theorem C6_round_trip_identity_witness :
    normalizeStrategy (.obj [("their_weakness", .str "a"), ("our_strength", .str "b"),
        ("kill_points", .arr [.str "k1", .str "k2"]), ("pricing_comparison", .str "c")])
      = .ok ⟨.str "a", .str "b", [.str "k1", .str "k2"], .str "c"⟩ :=
  C6_round_trip_identity.1
    [("their_weakness", .str "a"), ("our_strength", .str "b"),
     ("kill_points", .arr [.str "k1", .str "k2"]), ("pricing_comparison", .str "c")]
    "a" "b" "c" [.str "k1", .str "k2"] rfl rfl rfl rfl

/-! ## Claim C7: errors stop at the scenario boundary -/

/-- C7.  Every failure a scenario try-block produces — parse failure,
empty-list `IndexError`, missing-key `KeyError`, `TypeError`,
`AttributeError` — is caught at that scenario's boundary and turned into
the inline outcome (`Analysis failed` / `Error generating battlecard` /
`AI Error`); a PDF-extraction failure stops the screening flow with its
own inline message; and the only fatal case is the missing credential,
which stops the script before the router runs. -/
theorem C7_errors_caught_at_boundary :
    (∀ (raw : String) (parsed : Option Json) (e : Err),
      legalCore raw parsed = .error e → legalFlow raw parsed = .failed e)
    ∧ (∀ (raw : String) (parsed : Option Json) (e : Err),
      strategyCore raw parsed = .error e → strategyFlow raw parsed = .failed e raw)
    ∧ (∀ (t raw : String) (parsed : Option Json) (e : Err),
      recruiterCore raw parsed = .error e → recruiterFlow (.ok t) raw parsed = .aiError e)
    ∧ (∀ (raw : String) (parsed : Option Json),
      recruiterFlow (.error ()) raw parsed = .pdfFailed)
    ∧ (∀ (secrets : List (String × String)) (env : String → Option String)
        (choice m : String),
      startup secrets env = .halted m → runApp secrets env choice = .stopped m) := by
  refine ⟨?_, ?_, ?_, ?_, ?_⟩
  · intro raw parsed e h
    simp [legalFlow, h]
  · intro raw parsed e h
    simp [strategyFlow, h]
  · intro t raw parsed e h
    simp [recruiterFlow, h]
  · intro raw parsed
    rfl
  · intro secrets env choice m h
    simp [runApp, h]

/-- C7 (witness): each boundary at a concrete input. -/
theorem C7_errors_caught_at_boundary_witness :
    legalFlow "x" none = .failed (.parseError "x")
    ∧ strategyFlow "x" none = .failed (.parseError "x") "x"
    ∧ recruiterFlow (.ok "t") "x" none = .aiError (.parseError "x")
    ∧ recruiterFlow (.error ()) "x" none = .pdfFailed
    ∧ runApp [] (fun _ => none) "Legal Risk Auditor" = .stopped "🚨 API Key missing." :=
  ⟨C7_errors_caught_at_boundary.1 "x" none _ rfl,
   C7_errors_caught_at_boundary.2.1 "x" none _ rfl,
   C7_errors_caught_at_boundary.2.2.1 "t" "x" none _ rfl,
   C7_errors_caught_at_boundary.2.2.2.1 "x" none,
   C7_errors_caught_at_boundary.2.2.2.2 [] (fun _ => none) "Legal Risk Auditor" _ rfl⟩

/-! ## Claim C8: credential resolution order and fatality -/

/-- C8.  The key comes from the secret store when the store has it — the
environment is never consulted then — and from the environment exactly
when the store lacks it; when the resolution yields nothing (or the
falsy empty string), the script stops with the user-visible error before
the router, so no scenario is reachable. -/
theorem C8_credential_resolution :
    (∀ (secrets : List (String × String)) (env : String → Option String) (v : String),
      lookupSecret secrets "GOOGLE_API_KEY" = some v → resolveApiKey secrets env = some v)
    ∧ (∀ (secrets : List (String × String)) (env : String → Option String),
      lookupSecret secrets "GOOGLE_API_KEY" = none →
      resolveApiKey secrets env = env "GOOGLE_API_KEY")
    ∧ (∀ (secrets : List (String × String)) (env : String → Option String)
        (choice : String),
      (resolveApiKey secrets env = none ∨ resolveApiKey secrets env = some "") →
      runApp secrets env choice = .stopped "🚨 API Key missing.") := by
  refine ⟨?_, ?_, ?_⟩
  · intro secrets env v h
    simp [resolveApiKey, h]
  · intro secrets env h
    simp [resolveApiKey, h]
  · intro secrets env choice h
    rcases h with h | h
    · unfold runApp startup
      rw [h]
    · unfold runApp startup
      rw [h]
      rfl

/-- C8 (witness): store hit, environment fallback, and both halting
shapes at concrete inputs. -/
theorem C8_credential_resolution_witness :
    resolveApiKey [("GOOGLE_API_KEY", "k1")] (fun _ => some "envk") = some "k1"
    ∧ resolveApiKey [] (fun _ => some "envk") = some "envk"
    ∧ runApp [] (fun _ => none) "Smart Resume Screener" = .stopped "🚨 API Key missing."
    ∧ runApp [("GOOGLE_API_KEY", "")] (fun _ => some "envk") "Smart Resume Screener"
        = .stopped "🚨 API Key missing." :=
  ⟨C8_credential_resolution.1 [("GOOGLE_API_KEY", "k1")] (fun _ => some "envk") "k1" rfl,
   C8_credential_resolution.2.1 [] (fun _ => some "envk") rfl,
   C8_credential_resolution.2.2 [] (fun _ => none) "Smart Resume Screener" (Or.inl rfl),
   C8_credential_resolution.2.2 [("GOOGLE_API_KEY", "")] (fun _ => some "envk")
     "Smart Resume Screener" (Or.inr rfl)⟩

/-! ## Claim C9: the notice-period branch condition -/

/-- C9.  For a screening object whose `notice_period_detected` value is a
string, normalization succeeds (given the other accessed fields) and
takes the missing-notice branch — the warning plus the prominently
displayed outreach text-area — exactly when `"Unknown"` or `"Missing"`
occurs as a substring of that string; every other string value takes the
found branch, which shows the value and collapses the outreach draft
into an expander. -/
theorem C9_notice_period_branch :
    ∀ (kvs : List (String × Json)) (ms recomm od summ : Json) (s : String)
      (kms : List Json),
      lookupField kvs "match_score" = some ms →
      lookupField kvs "recommendation" = some recomm →
      lookupField kvs "notice_period_detected" = some (.str s) →
      lookupField kvs "outreach_draft" = some od →
      lookupField kvs "summary" = some summ →
      lookupField kvs "key_missing_skills" = some (.arr kms) →
      normalizeRecruiter (.obj kvs)
          = .ok ⟨ms, if recomm == Json.str "Shortlist" then "green" else "red", recomm,
                 .str s,
                 decide ("Unknown".toList <:+: s.toList)
                   || decide ("Missing".toList <:+: s.toList),
                 od, summ, kms, !kms.isEmpty⟩
      ∧ ((decide ("Unknown".toList <:+: s.toList)
            || decide ("Missing".toList <:+: s.toList)) = true ↔
          ("Unknown".toList <:+: s.toList ∨ "Missing".toList <:+: s.toList)) := by
  intro kvs ms recomm od summ s kms h1 h2 h3 h4 h5 h6
  constructor
  · unfold normalizeRecruiter
    rw [subscript_obj_some h1, subscript_obj_some h2, subscript_obj_some h3,
        subscript_obj_some h4, subscript_obj_some h5, subscript_obj_some h6]
    simp only [ok_bind, pyIn]
    cases kms <;> by_cases hA : "Unknown".toList <:+: s.toList <;>
      first
        | (rw [decide_eq_true hA]; rfl)
        | (rw [decide_eq_false hA]; rfl)
  · simp [Bool.or_eq_true, decide_eq_true_eq]

/-- C9 (witness): a concrete screening object whose notice-period string
contains `Unknown` takes the missing branch. -/
theorem C9_notice_period_branch_witness :
    normalizeRecruiter (.obj [("match_score", .num 70), ("recommendation", .str "Hold"),
        ("notice_period_detected", .str "Unknown"), ("outreach_draft", .str "hi"),
        ("summary", .str "ok"), ("key_missing_skills", .arr [])])
      = .ok ⟨.num 70, if Json.str "Hold" == Json.str "Shortlist" then "green" else "red",
             .str "Hold", .str "Unknown",
             decide ("Unknown".toList <:+: "Unknown".toList)
               || decide ("Missing".toList <:+: "Unknown".toList),
             .str "hi", .str "ok", [], !([] : List Json).isEmpty⟩
    ∧ ((decide ("Unknown".toList <:+: "Unknown".toList)
          || decide ("Missing".toList <:+: "Unknown".toList)) = true ↔
        ("Unknown".toList <:+: "Unknown".toList
          ∨ "Missing".toList <:+: "Unknown".toList)) :=
  C9_notice_period_branch
    [("match_score", .num 70), ("recommendation", .str "Hold"),
     ("notice_period_detected", .str "Unknown"), ("outreach_draft", .str "hi"),
     ("summary", .str "ok"), ("key_missing_skills", .arr [])]
    (.num 70) (.str "Hold") (.str "hi") (.str "ok") "Unknown" []
    rfl rfl rfl rfl rfl rfl

/-! ## Claim C10: the risk colour -/

/-- C10.  For a contract-risk object whose `risk_score` is a number, the
level text's colour is `red` exactly when the score is strictly greater
than `50` and `green` otherwise; the `risk_level` value (universally
quantified here) plays no part in the choice. -/
theorem C10_risk_color :
    ∀ (kvs : List (String × Json)) (n : Int) (lvl : Json) (items : List Json)
      (rend : List (Json × Json)),
      lookupField kvs "risk_score" = some (.num n) →
      lookupField kvs "risk_level" = some lvl →
      lookupField kvs "analysis" = some (.arr items) →
      renderAnalysisItems items = .ok rend →
      normalizeLegal (.obj kvs)
          = .ok ⟨.num n, if n > 50 then "red" else "green", lvl, rend⟩
      ∧ ((if n > 50 then "red" else "green") = "red" ↔ n > 50)
      ∧ ((if n > 50 then "red" else "green") = "green" ↔ ¬n > 50) := by
  intro kvs n lvl items rend h1 h2 h3 h4
  refine ⟨?_, ?_, ?_⟩
  · unfold normalizeLegal
    rw [subscript_obj_some h1, subscript_obj_some h2, subscript_obj_some h3]
    by_cases h : n > 50 <;> simp [pyGtInt, pyIterate, h4, h]
  · by_cases h : n > 50 <;> simp [h]
  · by_cases h : n > 50 <;> simp [h]

/-- C10 (witness): a score of 60 renders red, independent of the level
string. -/
theorem C10_risk_color_witness :
    normalizeLegal (.obj [("risk_score", .num 60), ("risk_level", .str "Low"),
        ("analysis", .arr [])])
      = .ok ⟨.num 60, if (60 : Int) > 50 then "red" else "green", .str "Low", []⟩
    ∧ ((if (60 : Int) > 50 then "red" else "green") = "red" ↔ (60 : Int) > 50)
    ∧ ((if (60 : Int) > 50 then "red" else "green") = "green" ↔ ¬(60 : Int) > 50) :=
  C10_risk_color
    [("risk_score", .num 60), ("risk_level", .str "Low"), ("analysis", .arr [])]
    60 (.str "Low") [] [] rfl rfl rfl rfl

end BizDemos
